import Mathlib

/-!
Verification of the trade-analytics aggregation pipeline of the
trade-paste-analytics repository.

The embedded code comes from three places:
* `supabase/functions/analyze-trades/index.ts` — the serverless handler that
  aggregates trade counts and proxies a text-generation endpoint;
* `src/pages/Analytics.tsx` — `calculateAnalytics` and its groupings;
* `src/pages/Dashboard.tsx` — the profitability groupings and the
  risk-reward bucket set used there.

Numbers are modelled by `ℚ`.  Nullable numeric columns (`risk`, `reward`,
`risk_reward_ratio`) are modelled by `Option ℚ`: `none` is the SQL `NULL`
that Supabase surfaces as the JavaScript value `null`.  JavaScript
truthiness and the `null`-coercing relational comparison are modelled
explicitly (`truthy`, `jsGe`, `jsLt`).
-/

/-- A trade row as selected by the pages (`trades` table joined with the
session name).  `trade_datetime` is an abstract instant in milliseconds;
the local-time offset used by `Date.prototype.getHours` is considered
folded into the stored value, since no claim depends on the timezone. -/
structure Trade where
  id : String
  pair : String
  session_name : String
  trade_datetime : Nat
  setup : Option String
  risk : Option ℚ
  reward : Option ℚ
  risk_reward_ratio : Option ℚ
  outcome : String
deriving DecidableEq, Repr

/-- JavaScript truthiness of a number-or-null value: `null`, `0` (and `NaN`,
absent from this model) are falsy, every other number is truthy. -/
def truthy : Option ℚ → Bool
  | none => false
  | some v => decide (v ≠ 0)

/-- ECMAScript `ToNumber` on a number-or-null value: `null` coerces to `0`. -/
def jsNum : Option ℚ → ℚ
  | none => 0
  | some v => v

/-- JS `x >= b` for a number-or-null `x`: `null >= b` behaves as `0 >= b`
because the abstract relational comparison converts `null` to `+0`. -/
def jsGe (x : Option ℚ) (b : ℚ) : Bool := decide (b ≤ jsNum x)

/-- JS `x < m` for a number-or-null `x` and an upper bound that may be
`Infinity` (modelled by `none`): every number, `null` included, is below
`Infinity`. -/
def jsLt (x : Option ℚ) (m : Option ℚ) : Bool :=
  match m with
  | none => true
  | some b => decide (jsNum x < b)

/-- `new Date(t.trade_datetime).getHours()`: hour-of-day 0–23 of the stored
instant (local offset folded into the value, see `Trade`). -/
def tradeHour (t : Trade) : Nat := t.trade_datetime / 3600000 % 24

namespace AnalyzeTrades

/-- The `tradeStats` object built by `supabase/functions/analyze-trades/index.ts`
before prompting the model. -/
structure TradeStats where
  totalTrades : Nat
  wins : Nat
  losses : Nat
  breakevens : Nat
  pairs : List (String × String)
  sessions : List (String × String)
  setups : List (String × String)
  rrRatios : List (ℚ × String)
  hours : List (Nat × String)
deriving DecidableEq, Repr

/-- `t.risk && t.reward ? t.reward / t.risk : null` — the ratio recomputed by
the edge function, `null` unless both amounts are truthy. -/
def rrOf (t : Trade) : Option ℚ :=
  if truthy t.risk && truthy t.reward then
    some (jsNum t.reward / jsNum t.risk)
  else none

/-- JS truthiness of an optional string (`.filter(t => t.setup)`):
`null` and the empty string are falsy. -/
def truthyStr : Option String → Bool
  | none => false
  | some s => decide (s ≠ "")

/-- The aggregate counts and per-trade projections of the edge function.
Note the breakeven filter compares with the string `"Breakeven"`. -/
def tradeStats (trades : List Trade) : TradeStats where
  totalTrades := trades.length
  wins := (trades.filter fun t => t.outcome == "Win").length
  losses := (trades.filter fun t => t.outcome == "Loss").length
  breakevens := (trades.filter fun t => t.outcome == "Breakeven").length
  pairs := trades.map fun t => (t.pair, t.outcome)
  sessions := trades.map fun t => (t.session_name, t.outcome)
  setups :=
    (trades.filter fun t => truthyStr t.setup).map fun t =>
      (t.setup.getD "", t.outcome)
  rrRatios :=
    (trades.filter fun t => (rrOf t).isSome).map fun t =>
      ((rrOf t).getD 0, t.outcome)
  hours := trades.map fun t => (tradeHour t, t.outcome)

/-- The single upstream `fetch` to the text-generation endpoint, reduced to
the data the handler consumes: the HTTP status and the first choice's
message content. -/
structure UpstreamResponse where
  status : Nat
  content : String
deriving DecidableEq, Repr

/-- `Response.ok` of the Fetch API: status in the range 200–299. -/
def responseOk (status : Nat) : Bool := 200 ≤ status && status ≤ 299

/-- What the `serve` handler returns for one request: HTTP status, the body
(the error message, or the analysis text on success) and how many times the
upstream endpoint was consulted. -/
structure ServeResult where
  status : Nat
  body : String
  upstreamCalls : Nat
deriving DecidableEq, Repr

/-- Shallow embedding of the `serve` handler of
`supabase/functions/analyze-trades/index.ts` (the CORS preflight branch and
logging aside).  The surrounding `try`/`catch` turns any thrown error into a
status-500 response carrying the error message, which is how the missing
credential (`throw new Error('LOVABLE_API_KEY not configured')`) and the
generic upstream failure (``throw new Error(`AI API error: ...`)``) are
surfaced.  `trades?` is the destructured request field: `none` models an
absent/null `trades` (the `!trades` check), `some ts` a present array. -/
def handle (apiKey : Option String) (trades? : Option (List Trade))
    (upstream : UpstreamResponse) : ServeResult :=
  match trades? with
  | none => ⟨400, "No trade data provided", 0⟩
  | some trades =>
    if trades.length = 0 then ⟨400, "No trade data provided", 0⟩
    else
      match apiKey with
      | none => ⟨500, "LOVABLE_API_KEY not configured", 0⟩
      | some _ =>
        if responseOk upstream.status then ⟨200, upstream.content, 1⟩
        else if upstream.status = 429 then
          ⟨429, "Rate limit exceeded. Please try again later.", 1⟩
        else if upstream.status = 402 then
          ⟨402, "Payment required. Please add credits to your workspace.", 1⟩
        else ⟨500, "AI API error: " ++ toString upstream.status, 1⟩

end AnalyzeTrades

namespace AIInsights

/-- Whether `generateInsights` in `src/components/analytics/AIInsights.tsx`
reaches the `supabase.functions.invoke('analyze-trades', ...)` call: it
returns early (with a "No Data" toast) when the trade list is empty. -/
def generateInsightsInvokes (trades : List Trade) : Bool :=
  decide (trades.length ≠ 0)

end AIInsights

/-! ### JS object accumulators

The pages build groupings with `reduce` over a plain object:
`if (!acc[k]) acc[k] = init; ...update acc[k]...`.  A JS object keeps keys
in first-insertion order, so it is modelled by an association list;
`upsert k init f` applies the per-element update `f` to the entry of `k`,
creating it from `init` on first touch. -/

def upsert {κ G : Type} [DecidableEq κ] (k : κ) (init : G) (f : G → G) :
    List (κ × G) → List (κ × G)
  | [] => [(k, f init)]
  | (k', g) :: rest =>
    if k' = k then (k', f g) :: rest else (k', g) :: upsert k init f rest

/-- `acc[k]` — lookup in the association list modelling a JS object. -/
def getGroup {κ G : Type} [DecidableEq κ] (k : κ) :
    List (κ × G) → Option G
  | [] => none
  | (k', g) :: rest => if k' = k then some g else getGroup k rest

/-- A whole `reduce` building a grouping: `key` extracts the object key of an
element and `f` is the per-element update of that key's entry. -/
def foldGroups {α κ G : Type} [DecidableEq κ] (key : α → κ) (init : G)
    (f : α → G → G) (l : List α) : List (κ × G) :=
  l.foldl (fun acc t => upsert (key t) init (f t) acc) []

namespace Analytics

/-- One entry of `sessionStats` in `src/pages/Analytics.tsx`. -/
structure SessionStat where
  session : String
  wins : Nat
  losses : Nat
  winRate : ℚ
  total : Nat
deriving DecidableEq, Repr

/-- One entry of `setupStats`. -/
structure SetupStat where
  setup : String
  wins : Nat
  losses : Nat
  winRate : ℚ
  total : Nat
deriving DecidableEq, Repr

/-- One entry of `pairStats`. -/
structure PairStat where
  pair : String
  wins : Nat
  losses : Nat
  winRate : ℚ
  pnl : ℚ
  total : Nat
deriving DecidableEq, Repr

/-- One entry of `hourlyStats`. -/
structure HourStat where
  hour : Nat
  wins : Nat
  losses : Nat
  winRate : ℚ
  total : Nat
deriving DecidableEq, Repr

/-- The `AnalyticsData` interface of `src/pages/Analytics.tsx`. -/
structure AnalyticsData where
  totalTrades : Nat
  winRate : ℚ
  totalPnL : ℚ
  avgRiskReward : ℚ
  sessionStats : List SessionStat
  setupStats : List SetupStat
  pairStats : List PairStat
  hourlyStats : List HourStat
  rrDistribution : List (String × Nat)
deriving DecidableEq, Repr

/-- `tradesData.filter(t => t.outcome === 'Win').length`. -/
def wins (tradesData : List Trade) : Nat :=
  (tradesData.filter fun t => t.outcome == "Win").length

/-- The reducer of `totalPnL`: `+reward` for a truthy-reward win, `-risk`
for a truthy-risk loss, unchanged otherwise. -/
def pnlStep (sum : ℚ) (trade : Trade) : ℚ :=
  if trade.outcome == "Win" && truthy trade.reward then sum + jsNum trade.reward
  else if trade.outcome == "Loss" && truthy trade.risk then sum - jsNum trade.risk
  else sum

/-- `tradesData.reduce((sum, trade) => ..., 0)` — the signed P&L total. -/
def totalPnL (tradesData : List Trade) : ℚ :=
  tradesData.foldl pnlStep 0

/-- `tradesData.filter(t => t.risk_reward_ratio)` — the trades whose ratio is
truthy (present and non-zero). -/
def rrTrades (tradesData : List Trade) : List Trade :=
  tradesData.filter fun t => truthy t.risk_reward_ratio

/-- `avgRiskReward`: sum of the truthy ratios over their count; the JS
`... || 0` turns the `NaN` produced by `0/0` on an empty filter into `0`
(and is the numeric identity otherwise). -/
def avgRiskReward (tradesData : List Trade) : ℚ :=
  if (rrTrades tradesData).length = 0 then 0
  else
    ((rrTrades tradesData).foldl (fun sum t => sum + jsNum t.risk_reward_ratio) 0) /
      ((rrTrades tradesData).length : ℚ)

/-- The `{ wins, losses, total }` accumulator entry shared by the session,
setup and hourly groupings. -/
structure WLT where
  wins : Nat
  losses : Nat
  total : Nat
deriving DecidableEq, Repr

/-- The per-trade update of a `{ wins, losses, total }` entry:
`total++`, `wins++` on a Win, `losses++` on a Loss. -/
def wltStep (trade : Trade) (g : WLT) : WLT where
  wins := g.wins + (if trade.outcome == "Win" then 1 else 0)
  losses := g.losses + (if trade.outcome == "Loss" then 1 else 0)
  total := g.total + 1

/-- `sessionGroups` — grouping keyed by `trade.session_name`. -/
def sessionGroups (tradesData : List Trade) : List (String × WLT) :=
  foldGroups (fun t => t.session_name) ⟨0, 0, 0⟩ wltStep tradesData

/-- `sessionStats` — the session grouping rendered with its win rate. -/
def sessionStats (tradesData : List Trade) : List SessionStat :=
  (sessionGroups tradesData).map fun (session, data) =>
    { session
      wins := data.wins
      losses := data.losses
      total := data.total
      winRate := (data.wins : ℚ) / (data.total : ℚ) * 100 }

/-- `trade.setup || 'Unknown'` — JS falsy strings (`null`, `''`) become
`'Unknown'`. -/
def setupKey (t : Trade) : String :=
  match t.setup with
  | none => "Unknown"
  | some s => if s = "" then "Unknown" else s

/-- `setupGroups` — grouping keyed by `trade.setup || 'Unknown'`. -/
def setupGroups (tradesData : List Trade) : List (String × WLT) :=
  foldGroups setupKey ⟨0, 0, 0⟩ wltStep tradesData

/-- `setupStats` — setups with win rate, sorted by descending trade count
(JS `sort` is stable) and cut to the top 10. -/
def setupStats (tradesData : List Trade) : List SetupStat :=
  (((setupGroups tradesData).map fun (setup, data) =>
    ({ setup
       wins := data.wins
       losses := data.losses
       total := data.total
       winRate := (data.wins : ℚ) / (data.total : ℚ) * 100 } : SetupStat)).mergeSort
      (fun a b => decide (b.total ≤ a.total))).take 10

/-- The `{ wins, losses, total, pnl }` accumulator of `pairGroups`. -/
structure WLTP where
  wins : Nat
  losses : Nat
  total : Nat
  pnl : ℚ
deriving DecidableEq, Repr

/-- The per-trade update of a pair entry, mirroring the two sequential `if`
statements of the source: `total++`; `if (Win) { wins++; if (reward) pnl +=
reward }`; `if (Loss) { losses++; if (risk) pnl -= risk }`. -/
def pairStep (trade : Trade) (g : WLTP) : WLTP :=
  let g1 : WLTP := { g with total := g.total + 1 }
  let g2 : WLTP :=
    if trade.outcome == "Win" then
      { g1 with
        wins := g1.wins + 1
        pnl := if truthy trade.reward then g1.pnl + jsNum trade.reward else g1.pnl }
    else g1
  if trade.outcome == "Loss" then
    { g2 with
      losses := g2.losses + 1
      pnl := if truthy trade.risk then g2.pnl - jsNum trade.risk else g2.pnl }
  else g2

/-- `pairGroups` — grouping keyed by `trade.pair`. -/
def pairGroups (tradesData : List Trade) : List (String × WLTP) :=
  foldGroups (fun t => t.pair) ⟨0, 0, 0, 0⟩ pairStep tradesData

/-- `pairStats` — pairs with win rate and P&L, sorted by descending count. -/
def pairStats (tradesData : List Trade) : List PairStat :=
  ((pairGroups tradesData).map fun (pair, data) =>
    ({ pair
       wins := data.wins
       losses := data.losses
       total := data.total
       pnl := data.pnl
       winRate := (data.wins : ℚ) / (data.total : ℚ) * 100 } : PairStat)).mergeSort
    (fun a b => decide (b.total ≤ a.total))

/-- `hourlyGroups` — grouping keyed by the hour of `trade.trade_datetime`. -/
def hourlyGroups (tradesData : List Trade) : List (Nat × WLT) :=
  foldGroups tradeHour ⟨0, 0, 0⟩ wltStep tradesData

/-- `hourlyStats`: `Array.from({length: 24}, (_, hour) => ...)` — one entry
per hour 0–23, zero counts and `winRate` 0 for hours without a group. -/
def hourlyStats (tradesData : List Trade) : List HourStat :=
  (List.range 24).map fun hour =>
    match getGroup hour (hourlyGroups tradesData) with
    | none => { hour, wins := 0, losses := 0, total := 0, winRate := 0 }
    | some g =>
      { hour
        wins := g.wins
        losses := g.losses
        total := g.total
        winRate := (g.wins : ℚ) / (g.total : ℚ) * 100 }

/-- One `{ range, min, max }` bucket boundary; `max = none` is `Infinity`. -/
structure RRRange where
  range : String
  min : ℚ
  max : Option ℚ
deriving DecidableEq, Repr

/-- Boundary set A — the `rrRanges` literal of `src/pages/Analytics.tsx`. -/
def rrRanges : List RRRange :=
  [⟨"0-0.5", 0, some (1/2)⟩, ⟨"0.5-1", 1/2, some 1⟩, ⟨"1-1.5", 1, some (3/2)⟩,
   ⟨"1.5-2", 3/2, some 2⟩, ⟨"2-3", 2, some 3⟩, ⟨"3+", 3, none⟩]

/-- `t.risk_reward_ratio >= min && t.risk_reward_ratio < max` with JS
comparison semantics on the possibly-`null` ratio. -/
def inBucket (r : Option ℚ) (b : RRRange) : Bool :=
  jsGe r b.min && jsLt r b.max

/-- `rrDistribution` — per-bucket count of trades whose ratio satisfies the
JS range test. -/
def rrDistribution (tradesData : List Trade) : List (String × Nat) :=
  rrRanges.map fun b =>
    (b.range, (tradesData.filter fun t => inBucket t.risk_reward_ratio b).length)

/-- `calculateAnalytics` of `src/pages/Analytics.tsx`: `none` models the
early `setAnalytics(null); return;` on an empty list. -/
def calculateAnalytics (tradesData : List Trade) : Option AnalyticsData :=
  if tradesData.length = 0 then none
  else some
    { totalTrades := tradesData.length
      winRate := ((wins tradesData : ℚ) / (tradesData.length : ℚ)) * 100
      totalPnL := totalPnL tradesData
      avgRiskReward := avgRiskReward tradesData
      sessionStats := sessionStats tradesData
      setupStats := setupStats tradesData
      pairStats := pairStats tradesData
      hourlyStats := hourlyStats tradesData
      rrDistribution := rrDistribution tradesData }

end Analytics

namespace Dashboard

/-- The `{ pnl, wins, losses, count }` accumulator entry of the Dashboard's
session grouping. -/
structure SGroup where
  pnl : ℚ
  wins : Nat
  losses : Nat
  count : Nat
deriving DecidableEq, Repr

/-- The per-trade update of a Dashboard session entry, mirroring the two
sequential `if` statements of the source: `count++`; `if (Win && reward)
{ pnl += reward; wins++ }`; `if (Loss && risk) { pnl -= risk; losses++ }`.
A Win whose reward is falsy (or a Loss whose risk is) only bumps `count`. -/
def sessionStep (trade : Trade) (g : SGroup) : SGroup :=
  let g1 : SGroup := { g with count := g.count + 1 }
  let g2 : SGroup :=
    if trade.outcome == "Win" && truthy trade.reward then
      { g1 with pnl := g1.pnl + jsNum trade.reward, wins := g1.wins + 1 }
    else g1
  if trade.outcome == "Loss" && truthy trade.risk then
    { g2 with pnl := g2.pnl - jsNum trade.risk, losses := g2.losses + 1 }
  else g2

/-- `sessionGroups` of `src/pages/Dashboard.tsx`. -/
def sessionGroups (formattedTrades : List Trade) : List (String × SGroup) :=
  foldGroups (fun t => t.session_name) ⟨0, 0, 0, 0⟩ sessionStep formattedTrades

/-- One entry of `profitableSessions`. -/
structure ProfitableSession where
  session : String
  pnl : ℚ
  winRate : ℚ
  count : Nat
deriving DecidableEq, Repr

/-- `profitableSessions` — session groups with win rate, sorted by
descending P&L (JS `sort` is stable). -/
def profitableSessions (formattedTrades : List Trade) : List ProfitableSession :=
  ((sessionGroups formattedTrades).map fun (session, data) =>
    ({ session
       pnl := data.pnl
       winRate := (data.wins : ℚ) / (data.count : ℚ) * 100
       count := data.count } : ProfitableSession)).mergeSort
    (fun a b => decide (b.pnl ≤ a.pnl))

/-- Boundary set B — the `rrRanges` literal of `src/pages/Dashboard.tsx`. -/
def rrRanges : List Analytics.RRRange :=
  [⟨"< 1", 0, some 1⟩, ⟨"1-1.5", 1, some (3/2)⟩, ⟨"1.5-2", 3/2, some 2⟩,
   ⟨"2-3", 2, some 3⟩, ⟨"> 3", 3, none⟩]

/-- One entry of `profitableRR`. -/
structure RRStat where
  range : String
  pnl : ℚ
  count : Nat
  avgWinRate : ℚ
deriving DecidableEq, Repr

/-- `profitableRR`: for each bucket of set B, the trades whose (possibly
`null`) ratio passes the JS range test, their signed P&L, count and win
rate (0 for an empty bucket). -/
def profitableRR (formattedTrades : List Trade) : List RRStat :=
  rrRanges.map fun b =>
    let tradesInRange :=
      formattedTrades.filter fun t => Analytics.inBucket t.risk_reward_ratio b
    let pnl := tradesInRange.foldl Analytics.pnlStep 0
    let winCount := (tradesInRange.filter fun t => t.outcome == "Win").length
    { range := b.range
      pnl
      count := tradesInRange.length
      avgWinRate :=
        if 0 < tradesInRange.length then
          (winCount : ℚ) / (tradesInRange.length : ℚ) * 100
        else 0 }

end Dashboard

/-! ### Proof-support decompositions and claim-side definitions -/

/-- The per-trade contribution hidden in the `totalPnL` reducer, so that the
fold can be rewritten as a sum. -/
def pnlContrib (trade : Trade) : ℚ :=
  if trade.outcome == "Win" && truthy trade.reward then jsNum trade.reward
  else if trade.outcome == "Loss" && truthy trade.risk then -jsNum trade.risk
  else 0

/-- The per-record P&L contribution as the claim words it: `+reward` for a
Win whose reward is present, `-risk` for a Loss whose risk is present, and
`0` in every other case. -/
def claimContribution (t : Trade) : ℚ :=
  if t.outcome = "Win" then t.reward.getD 0
  else if t.outcome = "Loss" then -(t.risk.getD 0)
  else 0

/-- Count of trades whose outcome is the string `"Loss"`. -/
def lossCount (l : List Trade) : Nat :=
  (l.filter fun t => t.outcome == "Loss").length

/-- Count of wins that also carry a truthy reward — what the Dashboard's
grouping actually increments as `wins`. -/
def winsRewarded (l : List Trade) : Nat :=
  (l.filter fun t => t.outcome == "Win" && truthy t.reward).length

/-- Count of losses that also carry a truthy risk — the Dashboard's
`losses`. -/
def lossesRisked (l : List Trade) : Nat :=
  (l.filter fun t => t.outcome == "Loss" && truthy t.risk).length

/-- The defined, non-zero risk-reward ratios of a list, as the claim words
the population averaged by `avgRiskReward`. -/
def definedNonZeroRatios (ts : List Trade) : List ℚ :=
  ts.filterMap fun t =>
    match t.risk_reward_ratio with
    | none => none
    | some r => if r = 0 then none else some r

/-- Wins recorded for session `s` by the Analytics grouping (0 when the
session has no entry). -/
def analyticsSessionWins (ts : List Trade) (s : String) : Nat :=
  ((getGroup s (Analytics.sessionGroups ts)).getD ⟨0, 0, 0⟩).wins

/-- Losses recorded for session `s` by the Analytics grouping. -/
def analyticsSessionLosses (ts : List Trade) (s : String) : Nat :=
  ((getGroup s (Analytics.sessionGroups ts)).getD ⟨0, 0, 0⟩).losses

/-- Wins recorded for session `s` by the Dashboard grouping. -/
def dashSessionWins (ts : List Trade) (s : String) : Nat :=
  ((getGroup s (Dashboard.sessionGroups ts)).getD ⟨0, 0, 0, 0⟩).wins

/-- Losses recorded for session `s` by the Dashboard grouping. -/
def dashSessionLosses (ts : List Trade) (s : String) : Nat :=
  ((getGroup s (Dashboard.sessionGroups ts)).getD ⟨0, 0, 0, 0⟩).losses

/-- Trade count recorded for session `s` by the Dashboard grouping. -/
def dashSessionCount (ts : List Trade) (s : String) : Nat :=
  ((getGroup s (Dashboard.sessionGroups ts)).getD ⟨0, 0, 0, 0⟩).count

/-! ### Concrete sample trades for witnesses and counterexamples -/

/-- A sample trade row; only the fields the aggregation reads vary. -/
def sampleTrade (outcome session : String) (risk reward ratio : Option ℚ)
    (dt : Nat) : Trade where
  id := "t"
  pair := "EURUSD"
  session_name := session
  trade_datetime := dt
  setup := none
  risk := risk
  reward := reward
  risk_reward_ratio := ratio
  outcome := outcome

/-- A breakeven trade as the application stores it (`outcome = 'BE'`, the
value the form's enum and the `trades` table CHECK constraint allow). -/
def beTrade : Trade := sampleTrade "BE" "London" (some 100) (some 100) (some 1) 0

/-- A win with both amounts present. -/
def winTrade : Trade := sampleTrade "Win" "London" (some 100) (some 200) (some 2) 0

/-- A win whose reward is absent (`NULL` risk-reward ratio as well, per the
generated column). -/
def winNoReward : Trade := sampleTrade "Win" "London" (some 100) none none 0

/-- A loss whose risk is absent. -/
def lossNoRisk : Trade := sampleTrade "Loss" "London" none (some 50) none 0

/-- A loss with both amounts present. -/
def lossTrade : Trade := sampleTrade "Loss" "Asia" (some 80) (some 160) (some 2) 3600000

/-- A trade whose risk-reward ratio is the SQL `NULL` (surfaced as the JS
`null`). -/
def nullRatioTrade : Trade := sampleTrade "Win" "Asia" none none none 3600000

/-- A trade whose risk-reward ratio is exactly `1.5`. -/
def ratio15Trade : Trade :=
  sampleTrade "Win" "Asia" (some 100) (some 150) (some (3/2)) 0

/-! ### Lemmas about the JS-object accumulators -/

theorem getGroup_upsert_self {κ G : Type} [DecidableEq κ] (k : κ) (init : G)
    (f : G → G) (acc : List (κ × G)) :
    getGroup k (upsert k init f acc) = some (f ((getGroup k acc).getD init)) := by
  induction acc with
  | nil => simp [upsert, getGroup]
  | cons p rest ih =>
    obtain ⟨k', g⟩ := p
    by_cases h : k' = k
    · simp [upsert, getGroup, h]
    · simp [upsert, getGroup, h, ih]

theorem getGroup_upsert_ne {κ G : Type} [DecidableEq κ] {j k : κ} (h : j ≠ k)
    (init : G) (f : G → G) (acc : List (κ × G)) :
    getGroup k (upsert j init f acc) = getGroup k acc := by
  induction acc with
  | nil => simp [upsert, getGroup, h]
  | cons p rest ih =>
    obtain ⟨k', g⟩ := p
    by_cases h' : k' = j
    · subst h'
      simp [upsert, getGroup, h]
    · by_cases h'' : k' = k <;> simp [upsert, getGroup, h', h'', Ne.symm h, ih]

theorem getGroup_foldl {α κ G : Type} [DecidableEq α] [DecidableEq κ] [BEq κ] [LawfulBEq κ]
    (key : α → κ) (init : G) (f : α → G → G) (l : List α) (k : κ)
    (acc : List (κ × G)) :
    getGroup k (l.foldl (fun a t => upsert (key t) init (f t) a) acc) =
      match getGroup k acc with
      | some g => some ((l.filter fun t => key t == k).foldl (fun g t => f t g) g)
      | none =>
        if (l.filter fun t => key t == k) = [] then none
        else some ((l.filter fun t => key t == k).foldl (fun g t => f t g) init) := by
  induction l generalizing acc with
  | nil => cases h : getGroup k acc <;> simp [h]
  | cons t l ih =>
    rw [List.foldl_cons, ih]
    by_cases hk : key t = k
    · subst hk
      rw [getGroup_upsert_self]
      cases h : getGroup (key t) acc with
      | some g => simp [h, List.filter_cons]
      | none => simp [h, List.filter_cons]
    · rw [getGroup_upsert_ne hk]
      have hf : (key t == k) = false := by simp [hk]
      cases h : getGroup k acc <;> simp [h, List.filter_cons, hf]

theorem getGroup_foldGroups {α κ G : Type} [DecidableEq α] [DecidableEq κ]
    [BEq κ] [LawfulBEq κ] (key : α → κ) (init : G) (f : α → G → G)
    (l : List α) (k : κ) :
    getGroup k (foldGroups key init f l) =
      if (l.filter fun t => key t == k) = [] then none
      else some ((l.filter fun t => key t == k).foldl (fun g t => f t g) init) := by
  unfold foldGroups
  rw [getGroup_foldl]
  simp [getGroup]

/-! ### Counting lemmas for the per-group folds -/

theorem foldl_wltStep (l : List Trade) (g : Analytics.WLT) :
    l.foldl (fun g t => Analytics.wltStep t g) g =
      ⟨g.wins + Analytics.wins l, g.losses + lossCount l, g.total + l.length⟩ := by
  induction l generalizing g with
  | nil => simp [Analytics.wins, lossCount]
  | cons t l ih =>
    rw [List.foldl_cons, ih]
    simp only [Analytics.wltStep, Analytics.wins, lossCount, List.filter_cons,
      List.length_cons]
    cases hW : (t.outcome == "Win") <;> cases hL : (t.outcome == "Loss") <;>
      simp [hW, hL, Analytics.WLT.mk.injEq] <;> omega

theorem foldl_sessionStep (l : List Trade) (g : Dashboard.SGroup) :
    l.foldl (fun g t => Dashboard.sessionStep t g) g =
      ⟨g.pnl + (l.map pnlContrib).sum, g.wins + winsRewarded l,
        g.losses + lossesRisked l, g.count + l.length⟩ := by
  induction l generalizing g with
  | nil => simp [winsRewarded, lossesRisked]
  | cons t l ih =>
    rw [List.foldl_cons, ih]
    have hWL : ¬((t.outcome == "Win" && truthy t.reward) = true ∧
        (t.outcome == "Loss" && truthy t.risk) = true) := by
      rintro ⟨hW, hL⟩
      simp only [Bool.and_eq_true, beq_iff_eq] at hW hL
      rw [hW.1] at hL
      exact absurd hL.1 (by decide)
    simp only [Dashboard.sessionStep, winsRewarded, lossesRisked, pnlContrib,
      List.filter_cons, List.length_cons, List.map_cons, List.sum_cons]
    cases hW : (t.outcome == "Win" && truthy t.reward) with
    | false =>
      cases hL : (t.outcome == "Loss" && truthy t.risk) <;>
        simp [hW, hL, Dashboard.SGroup.mk.injEq] <;> and_intros <;> ring
    | true =>
      cases hL : (t.outcome == "Loss" && truthy t.risk) with
      | false =>
        simp [hW, hL, Dashboard.SGroup.mk.injEq]
        and_intros <;> ring
      | true => exact absurd ⟨hW, hL⟩ hWL

/-! ### The P&L fold as a sum of per-trade contributions -/

theorem pnlStep_eq (s : ℚ) (t : Trade) :
    Analytics.pnlStep s t = s + pnlContrib t := by
  unfold Analytics.pnlStep pnlContrib
  split_ifs <;> ring

theorem foldl_pnlStep (l : List Trade) (s : ℚ) :
    l.foldl Analytics.pnlStep s = s + (l.map pnlContrib).sum := by
  induction l generalizing s with
  | nil => simp
  | cons t l ih =>
    rw [List.foldl_cons, pnlStep_eq, ih]
    simp [add_assoc]

theorem totalPnL_eq_sum (l : List Trade) :
    Analytics.totalPnL l = (l.map pnlContrib).sum := by
  unfold Analytics.totalPnL
  rw [foldl_pnlStep]
  ring

theorem pnlContrib_eq_claim (t : Trade) : pnlContrib t = claimContribution t := by
  unfold pnlContrib claimContribution
  by_cases hW : t.outcome = "Win"
  · cases hr : t.reward with
    | none => simp [hW, hr, truthy, jsNum]
    | some v => by_cases hv : v = 0 <;> simp [hW, hr, hv, truthy, jsNum]
  · by_cases hL : t.outcome = "Loss"
    · cases hk : t.risk with
      | none => simp [hW, hL, hk, truthy, jsNum]
      | some v => by_cases hv : v = 0 <;> simp [hW, hL, hk, hv, truthy, jsNum]
    · simp [hW, hL]

/-! ### Characterizations of the groupings via filtered counts -/

theorem getGroup_sessionGroups (ts : List Trade) (s : String) :
    getGroup s (Analytics.sessionGroups ts) =
      if (ts.filter fun t => t.session_name == s) = [] then none
      else some ⟨Analytics.wins (ts.filter fun t => t.session_name == s),
        lossCount (ts.filter fun t => t.session_name == s),
        (ts.filter fun t => t.session_name == s).length⟩ := by
  unfold Analytics.sessionGroups
  rw [getGroup_foldGroups]
  split_ifs with h
  · rfl
  · rw [foldl_wltStep]
    simp

theorem analyticsSessionWins_eq (ts : List Trade) (s : String) :
    analyticsSessionWins ts s =
      Analytics.wins (ts.filter fun t => t.session_name == s) := by
  unfold analyticsSessionWins
  rw [getGroup_sessionGroups]
  split_ifs with h
  · simp [h, Analytics.wins]
  · rfl

theorem analyticsSessionLosses_eq (ts : List Trade) (s : String) :
    analyticsSessionLosses ts s =
      lossCount (ts.filter fun t => t.session_name == s) := by
  unfold analyticsSessionLosses
  rw [getGroup_sessionGroups]
  split_ifs with h
  · simp [h, lossCount]
  · rfl

theorem getGroup_dashSessionGroups (ts : List Trade) (s : String) :
    getGroup s (Dashboard.sessionGroups ts) =
      if (ts.filter fun t => t.session_name == s) = [] then none
      else some ⟨(((ts.filter fun t => t.session_name == s)).map pnlContrib).sum,
        winsRewarded (ts.filter fun t => t.session_name == s),
        lossesRisked (ts.filter fun t => t.session_name == s),
        (ts.filter fun t => t.session_name == s).length⟩ := by
  unfold Dashboard.sessionGroups
  rw [getGroup_foldGroups]
  split_ifs with h
  · rfl
  · rw [foldl_sessionStep]
    simp

theorem dashSessionWins_eq (ts : List Trade) (s : String) :
    dashSessionWins ts s = winsRewarded (ts.filter fun t => t.session_name == s) := by
  unfold dashSessionWins
  rw [getGroup_dashSessionGroups]
  split_ifs with h
  · simp [h, winsRewarded]
  · rfl

theorem dashSessionLosses_eq (ts : List Trade) (s : String) :
    dashSessionLosses ts s = lossesRisked (ts.filter fun t => t.session_name == s) := by
  unfold dashSessionLosses
  rw [getGroup_dashSessionGroups]
  split_ifs with h
  · simp [h, lossesRisked]
  · rfl

theorem dashSessionCount_eq (ts : List Trade) (s : String) :
    dashSessionCount ts s = (ts.filter fun t => t.session_name == s).length := by
  unfold dashSessionCount
  rw [getGroup_dashSessionGroups]
  split_ifs with h
  · simp [h]
  · rfl

theorem getGroup_hourlyGroups (ts : List Trade) (h : Nat) :
    getGroup h (Analytics.hourlyGroups ts) =
      if (ts.filter fun t => tradeHour t == h) = [] then none
      else some ⟨Analytics.wins (ts.filter fun t => tradeHour t == h),
        lossCount (ts.filter fun t => tradeHour t == h),
        (ts.filter fun t => tradeHour t == h).length⟩ := by
  unfold Analytics.hourlyGroups
  rw [getGroup_foldGroups]
  split_ifs with h
  · rfl
  · rw [foldl_wltStep]
    simp

/-! ### The averaged risk-reward population -/

theorem rrTrades_map (ts : List Trade) :
    (Analytics.rrTrades ts).map (fun t => jsNum t.risk_reward_ratio) =
      definedNonZeroRatios ts := by
  unfold Analytics.rrTrades definedNonZeroRatios
  induction ts with
  | nil => simp
  | cons t ts ih =>
    cases hr : t.risk_reward_ratio with
    | none =>
      have ht : truthy (none : Option ℚ) = false := rfl
      simp [List.filter_cons, List.filterMap_cons, hr, ht, ih]
    | some v =>
      by_cases hv : v = 0
      · have ht : truthy (some (0 : ℚ)) = false := by simp [truthy]
        simp [List.filter_cons, List.filterMap_cons, hr, ht, hv, ih]
      · have ht : truthy (some v) = true := by simp [truthy, hv]
        have hj : jsNum (some v) = v := rfl
        simp [List.filter_cons, List.filterMap_cons, hr, ht, hv, hj, ih]

theorem foldl_add_jsNum (l : List Trade) (s : ℚ) :
    l.foldl (fun sum t => sum + jsNum t.risk_reward_ratio) s =
      s + (l.map fun t => jsNum t.risk_reward_ratio).sum := by
  induction l generalizing s with
  | nil => simp
  | cons t l ih =>
    rw [List.foldl_cons, ih]
    simp [add_assoc]

/-! ### Claim theorems -/

/-- Claim C1: the engine's aggregate counts should satisfy
`wins + losses + breakevens == totalTrades` whenever every outcome is one of
the enumerated outcome values.  The application's own enumeration (the
form's enum and the `trades` table CHECK constraint) is `Win`/`Loss`/`BE`,
but the edge function counts breakevens by comparing with `"Breakeven"`:
on the valid record `beTrade` (outcome `'BE'`) the three counters sum to 0
while `totalTrades` is 1, breaking the invariant. -/
theorem claim1_tradeStats_BE_failing :
    (AnalyzeTrades.tradeStats [beTrade]).totalTrades = 1 ∧
    (AnalyzeTrades.tradeStats [beTrade]).wins +
      (AnalyzeTrades.tradeStats [beTrade]).losses +
      (AnalyzeTrades.tradeStats [beTrade]).breakevens = 0 := by
  decide

/-- Claim C2 (counterexample): on the empty list `calculateAnalytics`
produces no stats value at all (`null`), so there is no `winRate` equal to
0 when `totalTrades == 0`. -/
theorem claim2_empty_counterexample :
    ¬∃ a, Analytics.calculateAnalytics [] = some a ∧ a.winRate = 0 := by
  rintro ⟨a, ha, -⟩
  simp [Analytics.calculateAnalytics] at ha

/-- Claim C2 (amended): for a non-empty list the produced `winRate` equals
`100 * wins / totalTrades` exactly; on the empty list the aggregation
returns no stats value (`null`), so no division by zero is performed. -/
theorem claim2_winRate_amended (ts : List Trade) (h : ts ≠ []) :
    Analytics.calculateAnalytics [] = none ∧
    ∃ a, Analytics.calculateAnalytics ts = some a ∧
      a.winRate = 100 * (Analytics.wins ts : ℚ) / (ts.length : ℚ) := by
  refine ⟨rfl, ?_⟩
  have hl : ¬ts.length = 0 := fun hh => h (List.length_eq_zero.mp hh)
  unfold Analytics.calculateAnalytics
  rw [if_neg hl]
  exact ⟨_, rfl, by ring⟩

/-- Witness for the amended claim C2 at the one-element list `[winTrade]`. -/
theorem claim2_winRate_amended_witness :
    Analytics.calculateAnalytics [] = none ∧
    ∃ a, Analytics.calculateAnalytics [winTrade] = some a ∧
      a.winRate = 100 * (Analytics.wins [winTrade] : ℚ) /
        (([winTrade] : List Trade).length : ℚ) :=
  claim2_winRate_amended [winTrade] (by simp)

/-- Claim C3: `totalPnL` is the sum over records of `+reward` for a Win with
reward present, `-risk` for a Loss with risk present, and 0 otherwise; in
particular a Loss with absent risk (`lossNoRisk`) contributes exactly 0. -/
theorem claim3_totalPnL_spec (ts : List Trade) :
    Analytics.totalPnL ts = (ts.map claimContribution).sum ∧
    Analytics.totalPnL (lossNoRisk :: ts) = Analytics.totalPnL ts := by
  constructor
  · rw [totalPnL_eq_sum, funext pnlContrib_eq_claim]
  · rw [totalPnL_eq_sum, totalPnL_eq_sum, List.map_cons, List.sum_cons]
    have h0 : pnlContrib lossNoRisk = 0 := rfl
    rw [h0, zero_add]

/-- Claim C4: `totalPnL` is invariant under any permutation of the input
list. -/
theorem claim4_totalPnL_perm (l₁ l₂ : List Trade) (h : l₁.Perm l₂) :
    Analytics.totalPnL l₁ = Analytics.totalPnL l₂ := by
  rw [totalPnL_eq_sum, totalPnL_eq_sum]
  exact List.Perm.sum_eq (h.map pnlContrib)

/-- Witness for claim C4 on a concrete two-element swap. -/
theorem claim4_totalPnL_perm_witness :
    Analytics.totalPnL [winTrade, lossTrade] =
      Analytics.totalPnL [lossTrade, winTrade] :=
  claim4_totalPnL_perm _ _ (List.Perm.swap lossTrade winTrade [])

/-- Claim C5: for every input list the hourly breakdown has exactly 24
entries, the entry at index `h` is for hour `h`, and an hour with no trades
gets all-zero counts and `winRate` 0. -/
theorem claim5_hourlyStats_full_day (ts : List Trade) (h : Nat) (hh : h < 24) :
    (Analytics.hourlyStats ts).length = 24 ∧
    ∃ e, (Analytics.hourlyStats ts)[h]? = some e ∧ e.hour = h ∧
      ((∀ t ∈ ts, tradeHour t ≠ h) →
        e = { hour := h, wins := 0, losses := 0, winRate := 0, total := 0 }) := by
  refine ⟨by simp [Analytics.hourlyStats], ?_⟩
  unfold Analytics.hourlyStats
  rw [List.getElem?_map, List.getElem?_range hh, Option.map_some']
  refine ⟨_, rfl, ?_, ?_⟩
  · cases hg : getGroup h (Analytics.hourlyGroups ts) <;> simp [hg]
  · intro hnone
    have hf : (ts.filter fun t => tradeHour t == h) = [] := by
      rw [List.filter_eq_nil_iff]
      intro t ht
      simp [hnone t ht]
    have hg : getGroup h (Analytics.hourlyGroups ts) = none := by
      rw [getGroup_hourlyGroups, if_pos hf]
    simp [hg]

/-- Witness for claim C5 on the empty list at hour 0. -/
theorem claim5_hourlyStats_witness :
    (Analytics.hourlyStats []).length = 24 ∧
    ∃ e, (Analytics.hourlyStats [])[0]? = some e ∧ e.hour = 0 ∧
      ((∀ t ∈ ([] : List Trade), tradeHour t ≠ 0) →
        e = { hour := 0, wins := 0, losses := 0, winRate := 0, total := 0 }) :=
  claim5_hourlyStats_full_day [] 0 (by norm_num)

/-- Claim C6 (counterexample): a record whose risk-reward ratio is
undefined (the SQL `NULL`, surfaced as the JS `null`) is not excluded from
bucket membership: `null >= 0` and `null < max` are both true in JS, so it
is counted in the first bucket of boundary set A (`[0,0.5)`) and of
boundary set B (`[0,1)`). -/
theorem claim6_null_ratio_counterexample :
    (Analytics.rrDistribution [nullRatioTrade]).map Prod.snd = [1, 0, 0, 0, 0, 0] ∧
    (Dashboard.profitableRR [nullRatioTrade]).map Dashboard.RRStat.count =
      [1, 0, 0, 0, 0] := by
  constructor
  · norm_num [Analytics.rrDistribution, Analytics.rrRanges, Analytics.inBucket,
      jsGe, jsLt, jsNum, nullRatioTrade, sampleTrade, List.filter]
  · norm_num [Dashboard.profitableRR, Dashboard.rrRanges, Analytics.inBucket,
      jsGe, jsLt, jsNum, nullRatioTrade, sampleTrade, List.filter]

/-- Claim C6 (amended): bucket ranges are left-inclusive/right-exclusive
with the last bucket unbounded above, so a record with ratio exactly 1.5 is
counted in `[1.5,2)` and not in `[1,1.5)` under both boundary sets; but a
record with an undefined (null) ratio is not excluded — the JS comparison
coerces `null` to 0, so it is counted exactly as a ratio of 0 would be, and
lands in the first bucket of each set. -/
theorem claim6_bucket_amended (t u : Trade)
    (h15 : t.risk_reward_ratio = some (3/2))
    (hnull : u.risk_reward_ratio = none) :
    (Analytics.rrDistribution [t]).map Prod.snd = [0, 0, 0, 1, 0, 0] ∧
    (Dashboard.profitableRR [t]).map Dashboard.RRStat.count = [0, 0, 1, 0, 0] ∧
    (Analytics.rrDistribution [u]).map Prod.snd = [1, 0, 0, 0, 0, 0] ∧
    (Dashboard.profitableRR [u]).map Dashboard.RRStat.count = [1, 0, 0, 0, 0] ∧
    (∀ b : Analytics.RRRange,
      Analytics.inBucket u.risk_reward_ratio b = Analytics.inBucket (some 0) b) := by
  refine ⟨?_, ?_, ?_, ?_, ?_⟩
  · norm_num [Analytics.rrDistribution, Analytics.rrRanges, Analytics.inBucket,
      jsGe, jsLt, jsNum, h15, List.filter]
  · norm_num [Dashboard.profitableRR, Dashboard.rrRanges, Analytics.inBucket,
      jsGe, jsLt, jsNum, h15, List.filter]
  · norm_num [Analytics.rrDistribution, Analytics.rrRanges, Analytics.inBucket,
      jsGe, jsLt, jsNum, hnull, List.filter]
  · norm_num [Dashboard.profitableRR, Dashboard.rrRanges, Analytics.inBucket,
      jsGe, jsLt, jsNum, hnull, List.filter]
  · intro b
    obtain ⟨r, mn, mx⟩ := b
    cases mx <;> simp [Analytics.inBucket, jsGe, jsLt, jsNum, hnull]

/-- Witness for the amended claim C6 at concrete trades with ratio `1.5`
and ratio `null`. -/
theorem claim6_bucket_amended_witness :
    (Analytics.rrDistribution [ratio15Trade]).map Prod.snd = [0, 0, 0, 1, 0, 0] ∧
    (Dashboard.profitableRR [ratio15Trade]).map Dashboard.RRStat.count =
      [0, 0, 1, 0, 0] ∧
    (Analytics.rrDistribution [nullRatioTrade]).map Prod.snd = [1, 0, 0, 0, 0, 0] ∧
    (Dashboard.profitableRR [nullRatioTrade]).map Dashboard.RRStat.count =
      [1, 0, 0, 0, 0] ∧
    (∀ b : Analytics.RRRange,
      Analytics.inBucket nullRatioTrade.risk_reward_ratio b =
        Analytics.inBucket (some 0) b) :=
  claim6_bucket_amended ratio15Trade nullRatioTrade rfl rfl

/-- Claim C7 (counterexample): in the Dashboard's session grouping a Win
whose reward is absent is NOT counted in the group's wins — `winNoReward`
lands in the "London" group with `count = 1` but `wins = 0`. -/
theorem claim7_dashboard_wins_counterexample :
    Dashboard.sessionGroups [winNoReward] =
      [("London", { pnl := 0, wins := 0, losses := 0, count := 1 })] := rfl

/-- Claim C7 (amended): a Win with absent reward is counted in the overall
wins count and in the Analytics per-session wins while contributing 0 to
P&L; in the Dashboard per-session grouping it is counted in the group's
trade count but not in its wins.  Symmetrically, a Loss with absent risk is
counted in the Analytics per-session losses (contributing 0 to P&L) but not
in the Dashboard losses. -/
theorem claim7_win_loss_counting_amended (ts : List Trade) (t u : Trade)
    (hW : t.outcome = "Win") (hr : t.reward = none)
    (hL : u.outcome = "Loss") (hk : u.risk = none) :
    Analytics.wins (t :: ts) = Analytics.wins ts + 1 ∧
    Analytics.totalPnL (t :: ts) = Analytics.totalPnL ts ∧
    analyticsSessionWins (t :: ts) t.session_name =
      analyticsSessionWins ts t.session_name + 1 ∧
    dashSessionCount (t :: ts) t.session_name =
      dashSessionCount ts t.session_name + 1 ∧
    dashSessionWins (t :: ts) t.session_name = dashSessionWins ts t.session_name ∧
    analyticsSessionLosses (u :: ts) u.session_name =
      analyticsSessionLosses ts u.session_name + 1 ∧
    Analytics.totalPnL (u :: ts) = Analytics.totalPnL ts ∧
    dashSessionLosses (u :: ts) u.session_name =
      dashSessionLosses ts u.session_name := by
  have hct : pnlContrib t = 0 := by simp [pnlContrib, hW, hr, truthy]
  have hcu : pnlContrib u = 0 := by simp [pnlContrib, hL, hk, truthy]
  refine ⟨?_, ?_, ?_, ?_, ?_, ?_, ?_, ?_⟩
  · simp [Analytics.wins, List.filter_cons, hW]
  · rw [totalPnL_eq_sum, totalPnL_eq_sum, List.map_cons, List.sum_cons, hct,
      zero_add]
  · rw [analyticsSessionWins_eq, analyticsSessionWins_eq]
    simp [List.filter_cons, Analytics.wins, hW]
  · rw [dashSessionCount_eq, dashSessionCount_eq]
    simp [List.filter_cons]
  · rw [dashSessionWins_eq, dashSessionWins_eq]
    simp [List.filter_cons, winsRewarded, hr, truthy]
  · rw [analyticsSessionLosses_eq, analyticsSessionLosses_eq]
    simp [List.filter_cons, lossCount, hL]
  · rw [totalPnL_eq_sum, totalPnL_eq_sum, List.map_cons, List.sum_cons, hcu,
      zero_add]
  · rw [dashSessionLosses_eq, dashSessionLosses_eq]
    simp [List.filter_cons, lossesRisked, hk, truthy]

/-- Witness for the amended claim C7 at `winNoReward` and `lossNoRisk` over
the empty tail. -/
theorem claim7_amended_witness :
    Analytics.wins [winNoReward] = Analytics.wins [] + 1 ∧
    Analytics.totalPnL [winNoReward] = Analytics.totalPnL [] ∧
    analyticsSessionWins [winNoReward] winNoReward.session_name =
      analyticsSessionWins [] winNoReward.session_name + 1 ∧
    dashSessionCount [winNoReward] winNoReward.session_name =
      dashSessionCount [] winNoReward.session_name + 1 ∧
    dashSessionWins [winNoReward] winNoReward.session_name =
      dashSessionWins [] winNoReward.session_name ∧
    analyticsSessionLosses [lossNoRisk] lossNoRisk.session_name =
      analyticsSessionLosses [] lossNoRisk.session_name + 1 ∧
    Analytics.totalPnL [lossNoRisk] = Analytics.totalPnL [] ∧
    dashSessionLosses [lossNoRisk] lossNoRisk.session_name =
      dashSessionLosses [] lossNoRisk.session_name :=
  claim7_win_loss_counting_amended [] winNoReward lossNoRisk rfl rfl rfl rfl

/-- Claim C8: the text-generation proxy surfaces HTTP 429 as a distinct
rate-limit error, HTTP 402 as a distinct payment error, any other non-2xx
as a 500 carrying the upstream status in its message, and a missing
credential as a fatal configuration error reached before any upstream call
(`upstreamCalls = 0`); no case consults the upstream more than once. -/
theorem claim8_handler_errors (apiKey : String) (trades : List Trade)
    (upstream : AnalyzeTrades.UpstreamResponse) (hne : trades ≠ []) :
    (upstream.status = 429 →
      AnalyzeTrades.handle (some apiKey) (some trades) upstream =
        ⟨429, "Rate limit exceeded. Please try again later.", 1⟩) ∧
    (upstream.status = 402 →
      AnalyzeTrades.handle (some apiKey) (some trades) upstream =
        ⟨402, "Payment required. Please add credits to your workspace.", 1⟩) ∧
    (AnalyzeTrades.responseOk upstream.status = false →
      upstream.status ≠ 429 → upstream.status ≠ 402 →
      AnalyzeTrades.handle (some apiKey) (some trades) upstream =
        ⟨500, "AI API error: " ++ toString upstream.status, 1⟩) ∧
    AnalyzeTrades.handle none (some trades) upstream =
      ⟨500, "LOVABLE_API_KEY not configured", 0⟩ ∧
    (AnalyzeTrades.handle (some apiKey) (some trades) upstream).upstreamCalls ≤ 1 := by
  have hl : ¬trades.length = 0 := fun hh => hne (List.length_eq_zero.mp hh)
  refine ⟨?_, ?_, ?_, ?_, ?_⟩
  · intro h429
    simp [AnalyzeTrades.handle, hl, AnalyzeTrades.responseOk, h429]
  · intro h402
    simp [AnalyzeTrades.handle, hl, AnalyzeTrades.responseOk, h402]
  · intro hok h1 h2
    simp [AnalyzeTrades.handle, hl, hok, h1, h2]
  · simp [AnalyzeTrades.handle, hl]
  · simp only [AnalyzeTrades.handle, hl, if_false]
    split_ifs <;> simp

/-- Witness for claim C8 with a one-element trade list and a 429 upstream
response. -/
theorem claim8_handler_errors_witness :
    ((AnalyzeTrades.UpstreamResponse.mk 429 "").status = 429 →
      AnalyzeTrades.handle (some "key") (some [winTrade]) ⟨429, ""⟩ =
        ⟨429, "Rate limit exceeded. Please try again later.", 1⟩) ∧
    ((AnalyzeTrades.UpstreamResponse.mk 429 "").status = 402 →
      AnalyzeTrades.handle (some "key") (some [winTrade]) ⟨429, ""⟩ =
        ⟨402, "Payment required. Please add credits to your workspace.", 1⟩) ∧
    (AnalyzeTrades.responseOk (AnalyzeTrades.UpstreamResponse.mk 429 "").status = false →
      (AnalyzeTrades.UpstreamResponse.mk 429 "").status ≠ 429 →
      (AnalyzeTrades.UpstreamResponse.mk 429 "").status ≠ 402 →
      AnalyzeTrades.handle (some "key") (some [winTrade]) ⟨429, ""⟩ =
        ⟨500, "AI API error: " ++ toString (AnalyzeTrades.UpstreamResponse.mk 429 "").status, 1⟩) ∧
    AnalyzeTrades.handle none (some [winTrade]) ⟨429, ""⟩ =
      ⟨500, "LOVABLE_API_KEY not configured", 0⟩ ∧
    (AnalyzeTrades.handle (some "key") (some [winTrade]) ⟨429, ""⟩).upstreamCalls ≤ 1 :=
  claim8_handler_errors "key" [winTrade] ⟨429, ""⟩ (by simp)

/-- Claim C9: with an empty (or absent) trade list the handler answers 400
"No trade data provided" without consulting the upstream endpoint, and the
client-side `generateInsights` does not invoke the function at all. -/
theorem claim9_empty_refused :
    (∀ (apiKey : Option String) (up : AnalyzeTrades.UpstreamResponse),
      AnalyzeTrades.handle apiKey (some []) up = ⟨400, "No trade data provided", 0⟩ ∧
      AnalyzeTrades.handle apiKey none up = ⟨400, "No trade data provided", 0⟩) ∧
    AIInsights.generateInsightsInvokes [] = false := by
  exact ⟨fun k u => ⟨rfl, rfl⟩, rfl⟩

/-- Claim C10: `avgRiskReward` is 0 when no defined non-zero ratio exists
(no division by zero), and otherwise equals the arithmetic mean of the
defined non-zero ratios (absent and zero ratios excluded from numerator and
denominator alike). -/
theorem claim10_avgRiskReward (ts : List Trade) :
    Analytics.avgRiskReward ts =
      if definedNonZeroRatios ts = [] then 0
      else (definedNonZeroRatios ts).sum / ((definedNonZeroRatios ts).length : ℚ) := by
  unfold Analytics.avgRiskReward
  have hmap := rrTrades_map ts
  have hlen : (Analytics.rrTrades ts).length = (definedNonZeroRatios ts).length := by
    rw [← hmap, List.length_map]
  have hsum : ((Analytics.rrTrades ts).map fun t => jsNum t.risk_reward_ratio).sum =
      (definedNonZeroRatios ts).sum := by rw [hmap]
  by_cases h : definedNonZeroRatios ts = []
  · rw [if_pos h]
    have h0 : (Analytics.rrTrades ts).length = 0 := by rw [hlen, h]; rfl
    rw [if_pos h0]
  · rw [if_neg h]
    have hne : ¬(Analytics.rrTrades ts).length = 0 := by
      rw [hlen]
      exact fun hh => h (List.length_eq_zero.mp hh)
    rw [if_neg hne, foldl_add_jsNum, zero_add, hsum, hlen]
